import Mathlib

/-!
Verification of the Key Vault challenge authentication policy
(`azure/keyvault/securitydomain/_internal/challenge_auth_policy.py`), the
data-lake path pager (`azure/storage/filedatalake/aio/_list_paths_helper.py`)
and the long-running-operation poller contract, as a shallow embedding.

Python strings are modelled by `String`, re-implementing the handful of
`str` operations the source uses (`lower`, `strip`, `split`, `endswith`,
`startswith`, containment) over `String.data` lists so that their behaviour
is transparent to proofs.  HTTP machinery is modelled by explicit state
passing: the transport is a script `Nat → Response` indexed by how many
requests have been sent so far, and every Python exception is an explicit
`Err` value.
-/

namespace ChallengeAuth

/-- Python `str.lower` (ASCII inputs). -/
def strLower (s : String) : String := ⟨s.data.map Char.toLower⟩

/-- Python `str.endswith`. -/
def strEndsWith (s suffix : String) : Bool := suffix.data.isSuffixOf s.data

/-- Python `str.startswith`. -/
def strStartsWith (s pre : String) : Bool := pre.data.isPrefixOf s.data

/-- Python `pat in s` (substring containment) on character lists. -/
def listContains (l pat : List Char) : Bool :=
  match l with
  | [] => pat.isEmpty
  | _ :: rest => pat.isPrefixOf l || listContains rest pat

/-- Python `pat in s` (substring containment). -/
def strContains (s pat : String) : Bool := listContains s.data pat.data

/-- Python `s.split(c, 1)` when it actually splits: the pieces before and
after the first occurrence of `c`, or `none` when `c` does not occur. -/
def splitOnceChar (c : Char) : List Char → Option (List Char × List Char)
  | [] => none
  | x :: xs =>
    if x = c then some ([], xs)
    else (splitOnceChar c xs).map (fun p => (x :: p.1, p.2))

/-- Python `s.split(c)`. -/
def splitChar (c : Char) : List Char → List (List Char)
  | [] => [[]]
  | x :: xs =>
    let r := splitChar c xs
    if x = c then [] :: r
    else
      match r with
      | [] => [[x]]
      | h :: t => (x :: h) :: t

/-- Python `str.strip`. -/
def strTrim (s : String) : String :=
  ⟨((s.data.dropWhile Char.isWhitespace).reverse.dropWhile Char.isWhitespace).reverse⟩

/-- Characters after the first `"://"`, if any. -/
def afterSchemeSep : List Char → Option (List Char)
  | ':' :: '/' :: '/' :: rest => some rest
  | _ :: rest => afterSchemeSep rest
  | [] => none

/-- Python `urlparse(url).netloc` for the URL shapes the policy handles: the
characters between `"://"` and the next `/`, `?` or `#` (empty when the URL
has no scheme separator). -/
def netloc (url : String) : String :=
  match afterSchemeSep url.data with
  | none => ""
  | some rest => ⟨rest.takeWhile (fun c => c ≠ '/' && c ≠ '?' && c ≠ '#')⟩

/-- The string `"." + d`, the pattern `_verify_challenge_resource` matches
request domains against. -/
def dotted (d : String) : String := ⟨'.' :: d.data⟩

/-- Python truthiness of an `Optional[str]`: `None` and `""` are falsy. -/
def optTruthy : Option String → Bool
  | none => false
  | some s => !s.isEmpty

/-- An outgoing HTTP request (`azure.core.rest.HttpRequest`): method, URL,
headers and optional body content. -/
structure HttpRequest where
  method : String
  url : String
  headers : List (String × String)
  content : Option String
deriving DecidableEq

/-- An HTTP response as the policy observes it: status code and headers. -/
structure Response where
  status : Nat
  headers : List (String × String)
  body : String
deriving DecidableEq

/-- Case-insensitive header lookup (HTTP header maps are case-insensitive). -/
def headerGet (hs : List (String × String)) (k : String) : Option String :=
  (hs.find? (fun p => strLower p.1 == strLower k)).map Prod.snd

/-- Case-insensitive header write: replaces any existing value for the key. -/
def headerSet (hs : List (String × String)) (k v : String) : List (String × String) :=
  (hs.filter (fun p => strLower p.1 != strLower k)) ++ [(k, v)]

/-- An access token (`AccessToken` / `AccessTokenInfo`): the bearer string,
its expiry, and the optional proactive-refresh timestamp only
`AccessTokenInfo` carries. -/
structure AccessToken where
  token : String
  expires_on : Int
  refresh_on : Option Int
deriving DecidableEq

/-- A token request as issued to the credential: scope, optional tenant,
optional claims, and the continuous-access-evaluation flag. -/
structure TokenRequest where
  scope : String
  tenant_id : Option String
  claims : Option String
  enable_cae : Bool
deriving DecidableEq

/-- A parsed authentication challenge (`HttpChallenge`): the parameter map of
the `WWW-Authenticate` header and the tenant id extracted from the
authorization URL. -/
structure HttpChallenge where
  parameters : List (String × String)
  tenant_id : Option String
deriving DecidableEq

/-- `HttpChallenge.get_scope`: the `scope` parameter, `""` when absent. -/
def HttpChallenge.get_scope (c : HttpChallenge) : String :=
  (c.parameters.lookup "scope").getD ""

/-- `HttpChallenge.get_resource`: the `resource` parameter, `""` when absent. -/
def HttpChallenge.get_resource (c : HttpChallenge) : String :=
  (c.parameters.lookup "resource").getD ""

/-- `HttpChallenge.claims`: the `claims` parameter, when present. -/
def HttpChallenge.claims (c : HttpChallenge) : Option String :=
  c.parameters.lookup "claims"

/-- Python dict assignment `parameters[k] = v`. -/
def paramSet (ps : List (String × String)) (k v : String) : List (String × String) :=
  (k, v) :: ps.filter (fun p => p.1 != k)

/-- A Python exception as the policy can raise it. -/
inductive Err where
  /-- `azure.core.exceptions.ServiceRequestError` (the spec's
  `InsecureTransportError` is raised through it). -/
  | serviceRequest (msg : String)
  /-- Python `ValueError` (challenge parsing, scope validation, resource
  verification). -/
  | valueError (msg : String)
  /-- Python `IndexError` (out-of-range subscript). -/
  | indexError
deriving DecidableEq

/-- Mutable state threaded through one `ChallengeAuthPolicy.send` call:
the (mutable) outgoing request, the policy instance's own fields, the
process-wide challenge cache, and observation logs of every request handed
to the transport and every token request handed to the credential. -/
structure St where
  request : HttpRequest
  token : Option AccessToken
  request_copy : Option HttpRequest
  verify_challenge_resource : Bool
  supports_token_info : Bool
  cache : List (String × HttpChallenge)
  sent : List HttpRequest
  tokenRequests : List TokenRequest
deriving DecidableEq

/-- Outcome of a policy step: a value or a raised exception, in both cases
with the state (side effects persist across a Python `raise`). -/
inductive Res (α : Type) where
  | ok (a : α) (s : St)
  | err (e : Err) (s : St)
deriving DecidableEq

/-- The response the run produced, when it did not raise. -/
def Res.response : Res Response → Option Response
  | .ok r _ => some r
  | .err _ _ => none

/-- The exception the run raised, if any. -/
def Res.raised {α : Type} : Res α → Option Err
  | .ok _ _ => none
  | .err e _ => some e

/-- The final state of a run (also meaningful after an exception). -/
def Res.state {α : Type} : Res α → St
  | .ok _ s => s
  | .err _ s => s

/-- The returned Boolean of an `on_challenge` run, when it did not raise. -/
def Res.value : Res Bool → Option Bool
  | .ok b _ => some b
  | .err _ _ => none

/-- Modelled from the spec: `http_challenge_cache.py` is not under `src/`.
Per §3 a challenge is "stored in the Challenge Cache keyed by normalized
request URL authority"; the key is the lowercased authority of the URL. -/
def cacheKey (url : String) : String := strLower (netloc url)

/-- Modelled from the spec: `ChallengeCache.get_challenge_for_url` (§4.1
`get(authority) -> Challenge | absent`). -/
def get_challenge_for_url (cache : List (String × HttpChallenge)) (url : String) :
    Option HttpChallenge :=
  cache.lookup (cacheKey url)

/-- Modelled from the spec: `ChallengeCache.set_challenge_for_url` (§4.1,
§3: "at most one challenge cached per authority key at any time; a new
challenge for the same authority replaces the old one"). -/
def set_challenge_for_url (cache : List (String × HttpChallenge)) (url : String)
    (ch : HttpChallenge) : List (String × HttpChallenge) :=
  (cacheKey url, ch) :: cache.filter (fun p => p.1 != cacheKey url)

/-- Trim-and-unquote of one challenge parameter value. -/
def stripQuotes (l : List Char) : List Char :=
  match l with
  | '"' :: rest => if rest.getLast? = some '"' then rest.dropLast else l
  | _ => l

/-- One `key=value` fragment of a challenge header; `none` when the fragment
has no `=`. -/
def parseParam (frag : List Char) : Option (String × String) :=
  match splitOnceChar '=' frag with
  | none => none
  | some (k, v) => some (strTrim ⟨k⟩, ⟨stripQuotes (strTrim ⟨v⟩).data⟩)

/-- Modelled from the spec: tenant extraction of the missing
`http_challenge.py` — "Tenant id, if present, is extracted from the
authorization endpoint URL's path segment" (§4.2). -/
def tenantFromAuthorization (auth : String) : Option String :=
  match afterSchemeSep auth.data with
  | none => none
  | some rest =>
    match rest.dropWhile (fun c => c ≠ '/') with
    | '/' :: p =>
      let seg := p.takeWhile (fun c => c ≠ '/')
      if seg.isEmpty then none else some ⟨seg⟩
    | _ => none

/-- Modelled from the spec: the `HttpChallenge` constructor of the missing
`http_challenge.py`.  Per §4.2 and §6 it parses a header of the form
`Bearer authorization="<url>", resource="<resource>"` (or with `scope=` /
`claims=`) permissively, ignoring unknown parameters, and fails with a
Python `ValueError` ("MalformedChallenge") when the header lacks a
recognizable scheme or is unparsable; `none` models that `ValueError`. -/
def parseChallenge (header : String) : Option HttpChallenge :=
  match splitOnceChar ' ' (strTrim header).data with
  | none => none
  | some (scheme, rest) =>
    if scheme.isEmpty then none
    else
      let frags := ((splitChar ',' rest).map (fun f => (strTrim ⟨f⟩).data)).filter
        (fun f => !f.isEmpty)
      match frags.mapM parseParam with
      | none => none
      | some params =>
        if params.isEmpty then none
        else
          some { parameters := params
                 tenant_id := (params.lookup "authorization").bind tenantFromAuthorization }

/-- `_enforce_tls`: raise `ServiceRequestError` unless the request URL,
lowercased, starts with `https`. -/
def _enforce_tls (s : St) : Res Unit :=
  if strStartsWith (strLower s.request.url) "https" then .ok () s
  else
    .err (.serviceRequest
      "Bearer token authentication is not permitted for non-TLS protected (non-https) URLs.")
      s

/-- `_has_claims`: split the stripped header on the first space and look for
`claims=` in the comma-separated parameter part; `none` models the
`IndexError` Python raises when the header has no space. -/
def _has_claims (challenge : String) : Option Bool :=
  match splitOnceChar ' ' (strTrim challenge).data with
  | none => none
  | some (_, rest) => some ((splitChar ',' rest).any (fun item => listContains item "claims=".data))

/-- `_update_challenge`: parse the `WWW-Authenticate` header of the
challenge response, cache the challenge for the request URL, and return it;
`none` models the `ValueError` raised on a missing or unparsable header. -/
def _update_challenge (s : St) (challenger : Response) :
    Option (HttpChallenge × List (String × HttpChallenge)) :=
  match (headerGet challenger.headers "WWW-Authenticate").bind parseChallenge with
  | none => none
  | some ch => some (ch, set_challenge_for_url s.cache s.request.url ch)

/-- `ChallengeAuthPolicy._need_new_token`: no token, or its refresh time has
passed, or fewer than 300 seconds remain before expiry. -/
def _need_new_token (now : Int) (token : Option AccessToken) : Bool :=
  match token with
  | none => true
  | some t =>
    (match t.refresh_on with
     | some r => decide (r ≠ 0) && decide (r ≤ now)
     | none => false)
    || decide (t.expires_on - now < 300)

/-- `ChallengeAuthPolicy._request_kv_token`: request a token from the
credential for the challenge's scope and tenant (tenant excluded for AD FS),
always with `enable_cae`, and cache it on the policy instance.  The
`supports_token_info` flag models `hasattr(credential, "get_token_info")`. -/
def _request_kv_token (cred : TokenRequest → AccessToken) (scope : String)
    (challenge : HttpChallenge) (s : St) : Res Unit :=
  let exclude_tenant :=
    match challenge.tenant_id with
    | some t => !t.isEmpty && strEndsWith (strLower t) "adfs"
    | none => false
  let req : TokenRequest :=
    if s.supports_token_info then
      { scope
        tenant_id := if optTruthy challenge.tenant_id && !exclude_tenant then
            challenge.tenant_id else none
        claims := none
        enable_cae := true }
    else if exclude_tenant then
      { scope, tenant_id := none, claims := none, enable_cae := true }
    else
      { scope, tenant_id := challenge.tenant_id, claims := none, enable_cae := true }
  .ok () { s with token := some (cred req), tokenRequests := s.tokenRequests ++ [req] }

/-- Modelled from the spec: `BearerTokenCredentialPolicy.authorize_request`
(azure-core, not under `src/`).  Per §4.4/§6 it acquires a token for the
given scope, optional tenant and optional claims (the constructor passed
`enable_cae=True`), stores it on the policy, and attaches it to the request
as an `Authorization: Bearer …` header. -/
def authorize_request (cred : TokenRequest → AccessToken) (scope : String)
    (claims : Option String) (tenant_id : Option String) (s : St) : Res Unit :=
  let req : TokenRequest := { scope, tenant_id, claims, enable_cae := true }
  let tok := cred req
  .ok () { s with
    token := some tok
    tokenRequests := s.tokenRequests ++ [req]
    request := { s.request with
      headers := headerSet s.request.headers "Authorization" ("Bearer " ++ tok.token) } }

/-- One transport round trip (`self.next.send`): the transport is a script
indexed by the number of requests sent so far; the outgoing request is
logged as sent. -/
def nextSend (script : Nat → Response) (s : St) : Res Response :=
  .ok (script s.sent.length) { s with sent := s.sent ++ [s.request] }

/-- The scope derived from a challenge, the source's repeated idiom
`challenge.get_scope() or challenge.get_resource() + "/.default"`
(challenge_auth_policy.py lines 176, 204 and 213). -/
def challengeScope (ch : HttpChallenge) : String :=
  if ch.get_scope ≠ "" then ch.get_scope else ch.get_resource ++ "/.default"

/-- The carry-forward step of `on_challenge` (lines 199–211): when the new
challenge has claims and a previous challenge was cached, overwrite the new
challenge's `scope` parameter with the previous challenge's derived scope
and its tenant with the previous tenant. -/
def carriedChallenge (cached : Option HttpChallenge) (ch : HttpChallenge) : HttpChallenge :=
  let old_scope : Option String := cached.map challengeScope
  let old_tenant : Option String := cached.bind (fun c => c.tenant_id)
  if optTruthy ch.claims && optTruthy old_scope then
    { parameters := paramSet ch.parameters "scope" (old_scope.getD "")
      tenant_id := old_tenant }
  else ch

/-- The resource-verification failure message of `on_challenge`
(lines 224–228). -/
def mismatchMessage (resource_domain : String) : String :=
  "The challenge resource '" ++ resource_domain ++
    "' does not match the requested domain. Pass `verify_challenge_resource=False` to " ++
    "your client's constructor to disable this verification. " ++
    "See https://aka.ms/azsdk/blog/vault-uri for more information."

/-- Tail of `on_challenge` after resource verification (lines 230–241):
restore the saved request copy, then authorize the request — without a
tenant when the challenge tenant ends in `adfs` (AD FS), with the
challenge's tenant otherwise. -/
def finishChallenge (cred : TokenRequest → AccessToken) (ch : HttpChallenge)
    (scope : String) (s : St) : Res Bool :=
  let s2 := match s.request_copy with
            | some copy => { s with request := copy }
            | none => s
  if (match ch.tenant_id with
      | some t => !t.isEmpty && strEndsWith (strLower t) "adfs"
      | none => false) then
    match authorize_request cred scope ch.claims none s2 with
    | .err e s3 => .err e s3
    | .ok _ s3 => .ok true s3
  else
    match authorize_request cred scope ch.claims ch.tenant_id s2 with
    | .err e s3 => .err e s3
    | .ok _ s3 => .ok true s3

/-- `ChallengeAuthPolicy.on_challenge` (lines 197–241): parse and cache the
new challenge (returning `False` on the `ValueError` of an unparsable
header), carry the previous challenge's scope/tenant onto a claims
challenge, verify the challenge resource against the request domain when
enabled, then authorize the restored request. -/
def on_challenge (cred : TokenRequest → AccessToken) (response : Response) (s : St) :
    Res Bool :=
  let cached := get_challenge_for_url s.cache s.request.url
  match _update_challenge s response with
  | none => .ok false s
  | some (ch0, _) =>
    -- the scope/tenant mutation acts on the object `_update_challenge` just
    -- cached, so the cache ends up holding the carried-forward challenge
    let ch := carriedChallenge cached ch0
    let s1 := { s with cache := set_challenge_for_url s.cache s.request.url ch }
    let scope := challengeScope ch
    if s1.verify_challenge_resource then
      let resource_domain := netloc scope
      if resource_domain = "" then
        .err (.valueError ("The challenge contains invalid scope '" ++ scope ++ "'.")) s1
      else
        let request_domain := netloc s1.request.url
        if strEndsWith (strLower request_domain) (dotted (strLower resource_domain)) then
          finishChallenge cred ch scope s1
        else
          .err (.valueError (mismatchMessage resource_domain)) s1
    else
      finishChallenge cred ch scope s1

/-- `ChallengeAuthPolicy.on_request` (lines 169–195): enforce TLS; with a
cached challenge, refresh the token if needed and attach it; with no cached
challenge, strip the request body (saving a copy) so a bodiless probe
elicits a challenge. -/
def on_request (cred : TokenRequest → AccessToken) (now : Int) (s : St) : Res Unit :=
  match _enforce_tls s with
  | .err e s' => .err e s'
  | .ok _ s1 =>
    match get_challenge_for_url s1.cache s1.request.url with
    | some challenge =>
      let afterTok : Res Unit :=
        if _need_new_token now s1.token then
          _request_kv_token cred (challengeScope challenge) challenge s1
        else .ok () s1
      match afterTok with
      | .err e s2 => .err e s2
      | .ok _ s2 =>
        -- the `none` default is unreachable: `_need_new_token` is true
        -- whenever no token is cached
        let bearer := match s2.token with | some t => t.token | none => ""
        .ok () { s2 with request := { s2.request with
          headers := headerSet s2.request.headers "Authorization" ("Bearer " ++ bearer) } }
    | none =>
      if (match s1.request.content with | some c => !c.isEmpty | none => false) then
        let bodiless : HttpRequest :=
          { method := s1.request.method
            url := s1.request.url
            headers := headerSet s1.request.headers "Content-Length" "0"
            content := none }
        .ok () { s1 with request := bodiless, request_copy := some s1.request }
      else .ok () s1

/-- `ChallengeAuthPolicy.handle_challenge_flow` (lines 123–167)
instantiated at `consecutive_challenge = True`, the only value the single
recursive call passes.  With the flag `True`, a non-claims challenge
returns the 401 immediately (line 146), and the resend's result is returned
whatever its status: the guard `status == 401 and not consecutive_challenge`
(line 162) can no longer fire, so no further recursion happens. -/
def handle_challenge_flow_consecutive (cred : TokenRequest → AccessToken)
    (script : Nat → Response) (response : Response) (s : St) : Res Response :=
  let s0 := { s with token := none }
  match headerGet response.headers "WWW-Authenticate" with
  | none => .ok response s0
  | some header =>
    match _has_claims header with
    | none => .err .indexError s0
    | some claims_challenge =>
      if claims_challenge = false then .ok response s0
      else
        match on_challenge cred response s0 with
        | .err e s1 => .err e s1
        | .ok false s1 => .ok response s1
        | .ok true s1 =>
          match nextSend script s1 with
          | .err e s2 => .err e s2
          | .ok response2 s2 => .ok response2 s2

/-- `ChallengeAuthPolicy.handle_challenge_flow` (lines 123–167) at its entry
instantiation `consecutive_challenge = False` (the default, and the value
`send` passes): invalidate the cached token; re-authorize via `on_challenge`
and resend; when the resend returns another 401 after a non-claims (Key
Vault) challenge, run the flow once more with `consecutive_challenge=True`.
The consecutive non-claims early return (line 146) cannot fire with the
flag `False` and is absent from this instantiation. -/
def handle_challenge_flow (cred : TokenRequest → AccessToken) (script : Nat → Response)
    (response : Response) (s : St) : Res Response :=
  let s0 := { s with token := none }
  match headerGet response.headers "WWW-Authenticate" with
  | none => .ok response s0
  | some header =>
    match _has_claims header with
    | none => .err .indexError s0
    | some claims_challenge =>
      match on_challenge cred response s0 with
      | .err e s1 => .err e s1
      | .ok false s1 => .ok response s1
      | .ok true s1 =>
        match nextSend script s1 with
        | .err e s2 => .err e s2
        | .ok response2 s2 =>
          if response2.status = 401 then
            if claims_challenge = false then
              handle_challenge_flow_consecutive cred script response2 s2
            else .ok response2 s2
          else .ok response2 s2

/-- `ChallengeAuthPolicy.send` (lines 98–121): authorize and send the
request, entering the challenge flow on a 401 response. -/
def send (cred : TokenRequest → AccessToken) (script : Nat → Response) (now : Int)
    (s : St) : Res Response :=
  match on_request cred now s with
  | .err e s1 => .err e s1
  | .ok _ s1 =>
    -- `on_exception` and `on_response` are no-op hooks here
    match nextSend script s1 with
    | .err e s2 => .err e s2
    | .ok response s2 =>
      if response.status = 401 then handle_challenge_flow cred script response s2
      else .ok response s2

end ChallengeAuth

namespace Paging

/-- A generated `Path` model item (plumbing around the pager). -/
structure Path where
  name : String
deriving DecidableEq

/-- A `PathProperties` item as yielded to the caller. -/
structure PathProperties where
  name : String
deriving DecidableEq

/-- `PathProperties._from_generated`. -/
def PathProperties.from_generated (p : Path) : PathProperties := { name := p.name }

/-- `PathPropertiesPaged._build_item`: convert a generated `Path` into
`PathProperties` (items already of the target type pass through). -/
def build_item (p : Path) : PathProperties := PathProperties.from_generated p

/-- One service page as `_get_next_cb` returns it: the deserialized path
list and the response's `continuation` header (the service sends `""` or a
token). -/
structure PathListResult where
  continuation : String
  paths : List Path
deriving DecidableEq

/-- `PathPropertiesPaged._extract_data_cb` (lines 191–195): build the
current page's items and return the continuation token, where the Python
`self._response['continuation'] or None` maps an empty token to `None`. -/
def extract_data (r : PathListResult) : Option String × List PathProperties :=
  (if r.continuation.isEmpty then none else some r.continuation,
   r.paths.map build_item)

/-- Modelled from the spec: the `AsyncPageIterator` engine (azure-core
paging, not under `src/`).  Per §3/§4.6 a page cursor holds the
continuation token (`""` starts from the origin) and whether enumeration has
completed; "a null/absent continuation token after a page is fetched means
enumeration is complete; this is terminal and irreversible". -/
structure PageIterator where
  token : String
  finished : Bool
deriving DecidableEq

/-- Modelled from the spec: one `next_page()` step of the iterator engine
(§4.6 `next_page() -> (items, continuation_token|absent)`).  A finished
iterator issues no request and yields nothing; otherwise the service is
asked for the page at the current token, the page's items are yielded, and
an absent continuation marks the iterator finished.  The first component
logs the page requests issued. -/
def stepIter (svc : String → PathListResult) (st : PageIterator) :
    List String × List PathProperties × PageIterator :=
  if st.finished then ([], [], st)
  else
    let r := svc st.token
    let (next, items) := extract_data r
    ([st.token], items,
      match next with
      | none => { token := "", finished := true }
      | some t => { token := t, finished := false })

/-- Iterating the pager `n` times, concatenating the requests issued and the
items yielded. -/
def runIter (svc : String → PathListResult) :
    Nat → PageIterator → List String × List PathProperties × PageIterator
  | 0, st => ([], [], st)
  | n + 1, st =>
    let (reqs, items, st') := stepIter svc st
    let (reqs', items', st'') := runIter svc n st'
    (reqs ++ reqs', items ++ items', st'')

end Paging

namespace Lro

/-- A long-running-operation status (§4.5:
`NotStarted → Running → {Succeeded, Failed, Canceled}`). -/
inductive Status where
  | notStarted
  | running
  | succeeded
  | failed
  | canceled
deriving DecidableEq

/-- Terminal statuses are absorbing. -/
def Status.isTerminal : Status → Bool
  | .succeeded => true
  | .failed => true
  | .canceled => true
  | _ => false

/-- Modelled from the spec: the remote operation the poller observes (the
poller implementation is not under `src/`; only its tests are).  The service
reports `Running` until `finishTime`, then its terminal status and final
payload (e.g. the backup's folder URL) forever — §3's monotonic-status
invariant. -/
structure Operation where
  statusUrl : String
  finishTime : Nat
  finalStatus : Status
  finalResult : String
deriving DecidableEq

/-- The status the service reports at time `t`. -/
def Operation.statusAt (op : Operation) (t : Nat) : Status :=
  if op.finishTime ≤ t then op.finalStatus else .running

/-- Modelled from the spec: the resumable poller state (§4.5) — the tracking
URL and the last known status. -/
structure Poller where
  trackingUrl : String
  status : Status
deriving DecidableEq

/-- Modelled from the spec: `continuation_token()` "serializes enough state
(tracking URL, last known status, resource identity) to resume the same
logical operation from a different poller instance" (§4.5). -/
structure ContinuationToken where
  trackingUrl : String
  status : Status
deriving DecidableEq

/-- `continuation_token()`. -/
def Poller.continuation_token (p : Poller) : ContinuationToken :=
  { trackingUrl := p.trackingUrl, status := p.status }

/-- Modelled from the spec: `resume(token)`, the inverse of
`continuation_token()` (§4.5). -/
def resume (tok : ContinuationToken) : Poller :=
  { trackingUrl := tok.trackingUrl, status := tok.status }

/-- Modelled from the spec: one `poll()` against the tracking URL at time
`t`; a poller already in a terminal state does not change (§4.5). -/
def Poller.pollOnce (op : Operation) (t : Nat) (p : Poller) : Poller :=
  if p.status.isTerminal then p else { p with status := op.statusAt t }

/-- Poll repeatedly (once per time unit) until a terminal status is reached
or the fuel runs out — the `wait()`/`result()` loop. -/
def runPoller (op : Operation) : Nat → Nat → Poller → Poller
  | 0, _, p => p
  | n + 1, t, p =>
    if p.status.isTerminal then p else runPoller op n (t + 1) (p.pollOnce op t)

/-- Modelled from the spec: `result()` — suspend until terminal, then return
the operation's final payload (§4.5). -/
def Poller.result (op : Operation) (fuel t : Nat) (p : Poller) : Option String :=
  let q := runPoller op fuel t p
  if q.status.isTerminal then some op.finalResult else none

end Lro

namespace ChallengeAuth

/-- A concrete credential: every token request yields the same token. -/
def cred0 : TokenRequest → AccessToken :=
  fun _ => { token := "tok", expires_on := 100000, refresh_on := none }

/-- A concrete vault request over TLS with a JSON body. -/
def req0 : HttpRequest :=
  { method := "POST"
    url := "https://foo.vault.example.net/sd"
    headers := [("Content-Type", "application/json")]
    content := some "body" }

/-- Fresh policy state for `req0`: no cached token or challenge, resource
verification on (the default), `get_token`-shaped credential. -/
def st0 : St :=
  { request := req0, token := none, request_copy := none
    verify_challenge_resource := true, supports_token_info := false
    cache := [], sent := [], tokenRequests := [] }

/-- A Key Vault challenge header that carries a claims parameter. -/
def claimsHeader : String :=
  "Bearer authorization=\"https://login.example.net/tid\", scope=\"https://vault.example.net\", claims=\"abc\""

/-- A Key Vault discovery challenge header (resource, no claims). -/
def kvHeader : String :=
  "Bearer authorization=\"https://login.example.net/tid\", resource=\"https://vault.example.net\""

/-- A CAE step-up challenge header: claims only, no scope or resource. -/
def caeHeader : String :=
  "Bearer authorization=\"https://login.example.net/tid\", claims=\"xyz\""

/-- First 401 carrying a claims challenge. -/
def r401claims1 : Response :=
  { status := 401, headers := [("WWW-Authenticate", claimsHeader)], body := "first" }

/-- Second 401 carrying a claims challenge. -/
def r401claims2 : Response :=
  { status := 401, headers := [("WWW-Authenticate", claimsHeader)], body := "second" }

/-- Third 401 carrying a claims challenge. -/
def r401claims3 : Response :=
  { status := 401, headers := [("WWW-Authenticate", claimsHeader)], body := "third" }

/-- A 401 discovery challenge response (no claims). -/
def r401kv : Response :=
  { status := 401, headers := [("WWW-Authenticate", kvHeader)], body := "kv" }

/-- A 401 CAE claims challenge response. -/
def r401cae : Response :=
  { status := 401, headers := [("WWW-Authenticate", caeHeader)], body := "cae" }

/-- Transport script answering every request with a claims-challenge 401. -/
def scriptclaims : Nat → Response
  | 0 => r401claims1
  | 1 => r401claims2
  | _ => r401claims3

/-- Transport script: discovery challenge, then CAE claims challenge, then
an arbitrary response. -/
def scriptKvCae (r3 : Response) : Nat → Response
  | 0 => r401kv
  | 1 => r401cae
  | _ => r3

/-- Transport script: discovery challenge, then an arbitrary response. -/
def scriptKv (r2 : Response) : Nat → Response
  | 0 => r401kv
  | _ => r2

/-- The vault request over plain http. -/
def stHttp : St :=
  { st0 with request := { req0 with url := "http://foo.vault.example.net/sd" } }

/-- A request whose URL authority equals the challenge resource's authority
exactly (no subdomain). -/
def stExact : St :=
  { st0 with request := { req0 with url := "https://vault.example.net/sd" } }

/-- A challenge whose tenant id ends in `adfs` without being equal to it. -/
def chAdfs : HttpChallenge :=
  { parameters := [("scope", "https://vault.example.net/.default"), ("claims", "xyz")]
    tenant_id := some "contoso-adfs" }

/-- A previously cached discovery challenge (resource, no scope) for the
authority of `req0`. -/
def oldCh0 : HttpChallenge :=
  { parameters := [("authorization", "https://login.example.net/tid"),
                   ("resource", "https://vault.example.net")]
    tenant_id := some "tid" }

/-- Policy state with `oldCh0` cached for `req0`'s authority. -/
def stCached : St :=
  { st0 with cache := [(cacheKey req0.url, oldCh0)] }

/-- A 401 whose challenge header has a space but no parseable `k=v`
parameter: `HttpChallenge` parsing fails with `ValueError`. -/
def r401bad : Response :=
  { status := 401, headers := [("WWW-Authenticate", "Bearer nonsense-without-equals")]
    body := "bad" }

/-- Transport script answering every request with the malformed challenge. -/
def scriptBad : Nat → Response := fun _ => r401bad

/-- A challenge header naming a resource unrelated to the request domain. -/
def evilHeader : String :=
  "Bearer authorization=\"https://login.example.net/tid\", resource=\"https://evil.example.org\""

/-- A 401 carrying the unrelated-resource challenge. -/
def r401evil : Response :=
  { status := 401, headers := [("WWW-Authenticate", evilHeader)], body := "evil" }

/-- The parsed form of `evilHeader`. -/
def chEvil : HttpChallenge :=
  { parameters := [("authorization", "https://login.example.net/tid"),
                   ("resource", "https://evil.example.org")]
    tenant_id := some "tid" }

/-- The parsed form of `caeHeader`: claims only, no scope or resource. -/
def chCae : HttpChallenge :=
  { parameters := [("authorization", "https://login.example.net/tid"), ("claims", "xyz")]
    tenant_id := some "tid" }

end ChallengeAuth

namespace Lro

/-- A concrete backup operation: finishes at time 3 with `Succeeded` and a
folder URL as its payload. -/
def op0 : Operation :=
  { statusUrl := "https://hsm.example.net/backup/pending/op1"
    finishTime := 3
    finalStatus := .succeeded
    finalResult := "https://blob.example.net/backup/mhsm-2020090117323313" }

/-- A continuation token taken from `op0`'s poller while still running. -/
def tok0 : ContinuationToken :=
  { trackingUrl := "https://hsm.example.net/backup/pending/op1", status := .running }

end Lro

namespace Paging

/-- A concrete paged service: two pages, the second with an empty
continuation (meaning: no more pages). -/
def svc0 : String → PathListResult
  | "" => { continuation := "t1", paths := [{ name := "a" }, { name := "b" }] }
  | _ => { continuation := "", paths := [{ name := "c" }] }

end Paging

namespace ChallengeAuth

/-- A string never ends with a dot followed by itself: the suffix is one
character longer. -/
theorem strEndsWith_dotted_self (x : String) : strEndsWith x (dotted x) = false := by
  rw [Bool.eq_false_iff]
  intro hsuf
  have h2 : ('.' :: x.data) <:+ x.data := by
    simpa [strEndsWith, dotted] using hsuf
  have h3 := h2.length_le
  simp at h3

/-- Filtering out one key leaves lookups of any other key unchanged. -/
theorem lookup_filter_ne (k k' : String) (l : List (String × String)) (h : k ≠ k') :
    (l.filter (fun p => p.1 != k')).lookup k = l.lookup k := by
  induction l with
  | nil => rfl
  | cons p t ih =>
    obtain ⟨pk, pv⟩ := p
    by_cases hp : pk = k'
    · subst hp
      have hkp : (k == pk) = false := beq_eq_false_iff_ne.mpr h
      simp [List.filter_cons, List.lookup, hkp, ih]
    · by_cases hk : k = pk
      · simp [List.filter_cons, List.lookup, hp, hk, bne_iff_ne]
      · have hkp : (k == pk) = false := beq_eq_false_iff_ne.mpr hk
        simp [List.filter_cons, List.lookup, hp, hkp, ih, bne_iff_ne]

/-- Appending `"/.default"` always yields a non-empty (Python-truthy)
string. -/
theorem append_default_isEmpty (R : String) : (R ++ "/.default").isEmpty = false := by
  rw [Bool.eq_false_iff]
  intro he
  have h2 : R ++ "/.default" = "" := (String.isEmpty_iff _).mp he
  have h3 : (R ++ "/.default").data = ([] : List Char) := by rw [h2]
  rw [String.data_append] at h3
  simp at h3

/-- C3: a request whose URL does not use TLS fails immediately with the
`ServiceRequestError` of `_enforce_tls`, with the state unchanged: no
Authorization header was attached to the request and nothing was handed to
the transport. -/
theorem c3_non_tls_fails_before_send (cred : TokenRequest → AccessToken)
    (script : Nat → Response) (now : Int) (s : St)
    (h : strStartsWith (strLower s.request.url) "https" = false) :
    send cred script now s =
      Res.err (Err.serviceRequest
        "Bearer token authentication is not permitted for non-TLS protected (non-https) URLs.")
        s := by
  simp [send, on_request, _enforce_tls, h]

/-- C3 witness: the plain-http vault request fails up front. -/
theorem c3_non_tls_fails_before_send_witness :
    strStartsWith (strLower stHttp.request.url) "https" = false ∧
    send cred0 scriptclaims 1000 stHttp =
      Res.err (Err.serviceRequest
        "Bearer token authentication is not permitted for non-TLS protected (non-https) URLs.")
        stHttp :=
  ⟨by decide, c3_non_tls_fails_before_send cred0 scriptclaims 1000 stHttp (by decide)⟩

end ChallengeAuth

namespace ChallengeAuth

/-- C9: with challenge-resource verification enabled, a request whose URL
authority is exactly equal to the challenge scope's authority is rejected
with the resource-mismatch error (the check demands the request authority
end with a dot followed by the scope authority, which an exact match never
does), and no token request is issued. -/
theorem c9_exact_authority_rejected (cred : TokenRequest → AccessToken) (resp : Response)
    (s : St) (ch0 : HttpChallenge)
    (hver : s.verify_challenge_resource = true)
    (hparse : (headerGet resp.headers "WWW-Authenticate").bind parseChallenge = some ch0)
    (heq : netloc (challengeScope
        (carriedChallenge (get_challenge_for_url s.cache s.request.url) ch0)) =
      netloc s.request.url)
    (hne : netloc s.request.url ≠ "") :
    (on_challenge cred resp s).raised =
      some (Err.valueError (mismatchMessage (netloc s.request.url))) ∧
    (on_challenge cred resp s).state.tokenRequests = s.tokenRequests := by
  unfold on_challenge _update_challenge
  rw [hparse]
  simp only [heq, hver]
  rw [if_neg hne]
  rw [strEndsWith_dotted_self (strLower (netloc s.request.url))]
  simp [Res.raised, Res.state]

/-- C9 witness: the discovery challenge names resource
`https://vault.example.net` and the request is to `vault.example.net`
itself — rejected. -/
theorem c9_exact_authority_rejected_witness :
    stExact.verify_challenge_resource = true ∧
    (headerGet r401kv.headers "WWW-Authenticate").bind parseChallenge = some oldCh0 ∧
    netloc (challengeScope
        (carriedChallenge (get_challenge_for_url stExact.cache stExact.request.url) oldCh0)) =
      netloc stExact.request.url ∧
    netloc stExact.request.url ≠ "" ∧
    (on_challenge cred0 r401kv stExact).raised =
      some (Err.valueError (mismatchMessage (netloc stExact.request.url))) ∧
    (on_challenge cred0 r401kv stExact).state.tokenRequests = stExact.tokenRequests :=
  ⟨by decide, by decide, by decide, by decide,
   (c9_exact_authority_rejected cred0 r401kv stExact oldCh0
      (by decide) (by decide) (by decide) (by decide)).1,
   (c9_exact_authority_rejected cred0 r401kv stExact oldCh0
      (by decide) (by decide) (by decide) (by decide)).2⟩

end ChallengeAuth

namespace ChallengeAuth

/-- C10: tenant scoping is omitted from the token request for every
challenge whose tenant, lowercased, merely ends with `adfs` (not only when
it equals `adfs`), both in the steady-state path `_request_kv_token` and in
the challenge path (`on_challenge`'s tail, `finishChallenge`). -/
theorem c10_adfs_suffix_excludes_tenant :
    (∀ (cred : TokenRequest → AccessToken) (scope : String) (ch : HttpChallenge) (s : St)
        (t : String),
      ch.tenant_id = some t → t.isEmpty = false → strEndsWith (strLower t) "adfs" = true →
      (_request_kv_token cred scope ch s).state.tokenRequests =
        s.tokenRequests ++
          [{ scope := scope, tenant_id := none, claims := none, enable_cae := true }]) ∧
    (∀ (cred : TokenRequest → AccessToken) (ch : HttpChallenge) (scope : String) (s : St)
        (t : String),
      ch.tenant_id = some t → t.isEmpty = false → strEndsWith (strLower t) "adfs" = true →
      (finishChallenge cred ch scope s).state.tokenRequests =
        s.tokenRequests ++
          [{ scope := scope, tenant_id := none, claims := ch.claims, enable_cae := true }]) := by
  constructor
  · intro cred scope ch s t ht hne hadfs
    unfold _request_kv_token
    rw [ht]
    simp only [hne, hadfs, optTruthy, Bool.not_false, Bool.and_true, Bool.and_false]
    cases hs : s.supports_token_info <;> simp [Res.state]
  · intro cred ch scope s t ht hne hadfs
    unfold finishChallenge
    rw [ht]
    simp only [hne, hadfs, Bool.not_false, Bool.and_self]
    cases hc : s.request_copy <;> simp [authorize_request, Res.state]

/-- C10 witness: tenant `contoso-adfs` (ends with, but does not equal,
`adfs`) is treated as AD FS — no tenant in either token request. -/
theorem c10_adfs_suffix_excludes_tenant_witness :
    chAdfs.tenant_id = some "contoso-adfs" ∧
    ("contoso-adfs" : String).isEmpty = false ∧
    strEndsWith (strLower "contoso-adfs") "adfs" = true ∧
    (_request_kv_token cred0 "https://vault.example.net/.default" chAdfs st0).state.tokenRequests =
      st0.tokenRequests ++
        [{ scope := "https://vault.example.net/.default", tenant_id := none, claims := none,
           enable_cae := true }] ∧
    (finishChallenge cred0 chAdfs "https://vault.example.net/.default" st0).state.tokenRequests =
      st0.tokenRequests ++
        [{ scope := "https://vault.example.net/.default", tenant_id := none,
           claims := chAdfs.claims, enable_cae := true }] :=
  ⟨rfl, by decide, by decide,
   c10_adfs_suffix_excludes_tenant.1 cred0 "https://vault.example.net/.default" chAdfs st0
     "contoso-adfs" rfl (by decide) (by decide),
   c10_adfs_suffix_excludes_tenant.2 cred0 chAdfs "https://vault.example.net/.default" st0
     "contoso-adfs" rfl (by decide) (by decide)⟩

end ChallengeAuth

namespace Paging

/-- C7: an absent continuation token after a fetched page is terminal and
irreversible.  A finished iterator issues no page request and yields no
items; a fetch whose extracted continuation is `none` leaves the iterator
finished; and any number of further iterations of a finished iterator issue
no requests and yield no items. -/
theorem c7_absent_continuation_terminal :
    (∀ (svc : String → PathListResult) (st : PageIterator),
      st.finished = true → stepIter svc st = ([], [], st)) ∧
    (∀ (svc : String → PathListResult) (st : PageIterator),
      st.finished = false → (extract_data (svc st.token)).1 = none →
      (stepIter svc st).2.2 = { token := "", finished := true }) ∧
    (∀ (svc : String → PathListResult) (n : Nat) (st : PageIterator),
      st.finished = true → runIter svc n st = ([], [], st)) := by
  refine ⟨?_, ?_, ?_⟩
  · intro svc st h
    simp [stepIter, h]
  · intro svc st h1 h2
    rcases hE : extract_data (svc st.token) with ⟨nextTok, items⟩
    rw [hE] at h2
    simp at h2
    subst h2
    simp [stepIter, h1, hE]
  · intro svc n st h
    induction n with
    | zero => rfl
    | succ n ih => simp [runIter, stepIter, h, ih]

/-- C7 witness: on the two-page service, the page at token `t1` comes back
with an empty continuation, the iterator is finished, and five further
iterations of a finished iterator do nothing. -/
theorem c7_absent_continuation_terminal_witness :
    (PageIterator.mk "" true).finished = true ∧
    stepIter svc0 (PageIterator.mk "" true) = ([], [], PageIterator.mk "" true) ∧
    (PageIterator.mk "t1" false).finished = false ∧
    (extract_data (svc0 "t1")).1 = none ∧
    (stepIter svc0 (PageIterator.mk "t1" false)).2.2 = PageIterator.mk "" true ∧
    runIter svc0 5 (PageIterator.mk "" true) = ([], [], PageIterator.mk "" true) :=
  ⟨rfl,
   c7_absent_continuation_terminal.1 svc0 (PageIterator.mk "" true) rfl,
   rfl,
   by decide,
   c7_absent_continuation_terminal.2.1 svc0 (PageIterator.mk "t1" false) rfl (by decide),
   c7_absent_continuation_terminal.2.2 svc0 5 (PageIterator.mk "" true) rfl⟩

end Paging

namespace Lro

/-- A poller in a terminal state never changes again, whatever the fuel. -/
theorem runPoller_terminal (op : Operation) (f t : Nat) (p : Poller)
    (h : p.status.isTerminal = true) : runPoller op f t p = p := by
  cases f <;> simp [runPoller, h]

/-- A running poller given enough fuel reaches the operation's terminal
status. -/
theorem runPoller_converges (op : Operation) (f t : Nat) (p : Poller)
    (hp : p.status = .running) (hterm : op.finalStatus.isTerminal = true)
    (hfuel : op.finishTime < t + f) (hf : 0 < f) :
    (runPoller op f t p).status = op.finalStatus := by
  induction f generalizing t p with
  | zero => omega
  | succ n ih =>
    have hnt : p.status.isTerminal = false := by rw [hp]; rfl
    simp only [runPoller, hnt, Bool.false_eq_true, if_false]
    by_cases hft : op.finishTime ≤ t
    · have hpoll : p.pollOnce op t = { p with status := op.finalStatus } := by
        simp [Poller.pollOnce, hnt, Operation.statusAt, hft]
      rw [hpoll, runPoller_terminal op n (t + 1) _ (by simpa using hterm)]
    · have hpoll : p.pollOnce op t = { p with status := .running } := by
        simp [Poller.pollOnce, hnt, Operation.statusAt, hft]
      rw [hpoll]
      exact ih (t + 1) _ rfl (by omega) (by omega)

/-- C8: resuming a poller from its continuation token with no intervening
state change reproduces an equivalent poller (same status, same tracking
URL — full state equality), and two pollers rehydrated from a token for the
same operation, each polling independently with enough fuel, converge to
the same terminal status and the same final result. -/
theorem c8_rehydrated_pollers_converge :
    (∀ p : Poller, resume p.continuation_token = p) ∧
    (∀ (op : Operation) (tok : ContinuationToken) (f1 t1 f2 t2 : Nat),
      tok.status = .running → op.finalStatus.isTerminal = true →
      op.finishTime < t1 + f1 → 0 < f1 → op.finishTime < t2 + f2 → 0 < f2 →
      (runPoller op f1 t1 (resume tok)).status = op.finalStatus ∧
      (runPoller op f2 t2 (resume tok)).status = op.finalStatus ∧
      Poller.result op f1 t1 (resume tok) = some op.finalResult ∧
      Poller.result op f2 t2 (resume tok) = some op.finalResult) := by
  constructor
  · intro p
    cases p
    rfl
  · intro op tok f1 t1 f2 t2 hrun hterm h1 h1f h2 h2f
    have s1 : (runPoller op f1 t1 (resume tok)).status = op.finalStatus :=
      runPoller_converges op f1 t1 (resume tok) (by simp [resume, hrun]) hterm h1 h1f
    have s2 : (runPoller op f2 t2 (resume tok)).status = op.finalStatus :=
      runPoller_converges op f2 t2 (resume tok) (by simp [resume, hrun]) hterm h2 h2f
    refine ⟨s1, s2, ?_, ?_⟩ <;> simp [Poller.result, s1, s2, hterm]

/-- C8 witness: two pollers rehydrated from `tok0` for the backup operation
`op0`, polled with different fuels and start times, both reach `Succeeded`
and the same folder URL. -/
theorem c8_rehydrated_pollers_converge_witness :
    tok0.status = Status.running ∧
    op0.finalStatus.isTerminal = true ∧
    op0.finishTime < 0 + 10 ∧ (0 : Nat) < 10 ∧ op0.finishTime < 2 + 6 ∧ (0 : Nat) < 6 ∧
    ((runPoller op0 10 0 (resume tok0)).status = op0.finalStatus ∧
     (runPoller op0 6 2 (resume tok0)).status = op0.finalStatus ∧
     Poller.result op0 10 0 (resume tok0) = some op0.finalResult ∧
     Poller.result op0 6 2 (resume tok0) = some op0.finalResult) ∧
    resume (Poller.continuation_token (resume tok0)) = resume tok0 :=
  ⟨rfl, rfl, by decide, by decide, by decide, by decide,
   c8_rehydrated_pollers_converge.2 op0 tok0 10 0 6 2 rfl rfl
     (by decide) (by decide) (by decide) (by decide),
   c8_rehydrated_pollers_converge.1 (resume tok0)⟩

end Lro

namespace ChallengeAuth

/-- C5: with challenge-resource verification enabled, a challenge whose
derived scope's network authority is not a dot-boundary suffix of the
request URL's authority fails with the `ValueError` carrying the
resource-mismatch guidance message (how to disable verification), and no
token request is issued. -/
theorem c5_resource_mismatch_rejected (cred : TokenRequest → AccessToken) (resp : Response)
    (s : St) (ch0 : HttpChallenge) (d : String)
    (hver : s.verify_challenge_resource = true)
    (hparse : (headerGet resp.headers "WWW-Authenticate").bind parseChallenge = some ch0)
    (hd : netloc (challengeScope
        (carriedChallenge (get_challenge_for_url s.cache s.request.url) ch0)) = d)
    (hne : d ≠ "")
    (hmis : strEndsWith (strLower (netloc s.request.url)) (dotted (strLower d)) = false) :
    (on_challenge cred resp s).raised = some (Err.valueError (mismatchMessage d)) ∧
    (on_challenge cred resp s).state.tokenRequests = s.tokenRequests := by
  unfold on_challenge _update_challenge
  rw [hparse]
  simp only [hd, hver]
  rw [if_neg hne, hmis]
  simp [Res.raised, Res.state]

/-- C5 witness: a challenge naming `https://evil.example.org` against a
request to `foo.vault.example.net` is rejected with the guidance message and
no token request. -/
theorem c5_resource_mismatch_rejected_witness :
    st0.verify_challenge_resource = true ∧
    (headerGet r401evil.headers "WWW-Authenticate").bind parseChallenge = some chEvil ∧
    netloc (challengeScope
        (carriedChallenge (get_challenge_for_url st0.cache st0.request.url) chEvil)) =
      "evil.example.org" ∧
    ("evil.example.org" : String) ≠ "" ∧
    strEndsWith (strLower (netloc st0.request.url))
      (dotted (strLower "evil.example.org")) = false ∧
    (on_challenge cred0 r401evil st0).raised =
      some (Err.valueError (mismatchMessage "evil.example.org")) ∧
    (on_challenge cred0 r401evil st0).state.tokenRequests = st0.tokenRequests :=
  ⟨by decide, by decide, by decide, by decide, by decide,
   (c5_resource_mismatch_rejected cred0 r401evil st0 chEvil "evil.example.org"
      (by decide) (by decide) (by decide) (by decide) (by decide)).1,
   (c5_resource_mismatch_rejected cred0 r401evil st0 chEvil "evil.example.org"
      (by decide) (by decide) (by decide) (by decide) (by decide)).2⟩

/-- C2: a claims challenge with no scope or resource, arriving while a
previous challenge is cached for the request authority, leads to a token
request for the previous challenge's scope (its resource with `"/.default"`
appended, since it had no scope) and the previous challenge's tenant,
combined with the new claims. -/
theorem c2_previous_scope_and_tenant_reused (cred : TokenRequest → AccessToken)
    (resp : Response) (s : St) (oldCh ch0 : HttpChallenge) (R t c : String)
    (hcache : get_challenge_for_url s.cache s.request.url = some oldCh)
    (hscope : oldCh.get_scope = "")
    (hres : oldCh.get_resource = R)
    (htenant : oldCh.tenant_id = some t)
    (hparse : (headerGet resp.headers "WWW-Authenticate").bind parseChallenge = some ch0)
    (hclaims : ch0.claims = some c)
    (hc : c.isEmpty = false)
    (hver : s.verify_challenge_resource = true)
    (hdne : netloc (R ++ "/.default") ≠ "")
    (hmatch : strEndsWith (strLower (netloc s.request.url))
        (dotted (strLower (netloc (R ++ "/.default")))) = true)
    (hadfs : strEndsWith (strLower t) "adfs" = false) :
    (on_challenge cred resp s).value = some true ∧
    (on_challenge cred resp s).state.tokenRequests =
      s.tokenRequests ++
        [{ scope := R ++ "/.default", tenant_id := some t, claims := some c,
           enable_cae := true }] := by
  have hcarry : carriedChallenge (get_challenge_for_url s.cache s.request.url) ch0 =
      { parameters := paramSet ch0.parameters "scope" (R ++ "/.default")
        tenant_id := some t } := by
    rw [hcache]
    unfold carriedChallenge challengeScope
    simp [hscope, hres, htenant, optTruthy, hclaims, hc, append_default_isEmpty]
  have hchscope : challengeScope
      { parameters := paramSet ch0.parameters "scope" (R ++ "/.default")
        tenant_id := some t } = R ++ "/.default" := by
    unfold challengeScope HttpChallenge.get_scope
    simp [paramSet, List.lookup]
    intro habs
    have h2 := append_default_isEmpty R
    rw [habs] at h2
    exact absurd h2 (by decide)
  have hchclaims : HttpChallenge.claims
      { parameters := paramSet ch0.parameters "scope" (R ++ "/.default")
        tenant_id := some t } = some c := by
    unfold HttpChallenge.claims at hclaims ⊢
    rw [paramSet]
    show List.lookup "claims" _ = _
    rw [List.lookup_cons]
    simp [lookup_filter_ne "claims" "scope" ch0.parameters (by decide), hclaims]
  unfold on_challenge _update_challenge
  rw [hparse]
  simp only [hcarry, hchscope, hver]
  rw [if_neg hdne, hmatch]
  simp only [if_true]
  unfold finishChallenge
  cases hrc : s.request_copy with
  | none =>
    simp only [hrc]
    simp [htenant, hadfs, hchclaims, authorize_request, Res.value, Res.state]
  | some copy =>
    simp only [hrc]
    simp [htenant, hadfs, hchclaims, authorize_request, Res.value, Res.state]

/-- C2 witness: after the discovery challenge for
`resource=https://vault.example.net` is cached, the CAE challenge carrying
only `claims="xyz"` produces a token request for scope
`https://vault.example.net/.default`, tenant `tid` and claims `xyz`. -/
theorem c2_previous_scope_and_tenant_reused_witness :
    get_challenge_for_url stCached.cache stCached.request.url = some oldCh0 ∧
    oldCh0.get_scope = "" ∧
    oldCh0.get_resource = "https://vault.example.net" ∧
    oldCh0.tenant_id = some "tid" ∧
    (headerGet r401cae.headers "WWW-Authenticate").bind parseChallenge = some chCae ∧
    chCae.claims = some "xyz" ∧
    (on_challenge cred0 r401cae stCached).value = some true ∧
    (on_challenge cred0 r401cae stCached).state.tokenRequests =
      stCached.tokenRequests ++
        [{ scope := "https://vault.example.net" ++ "/.default", tenant_id := some "tid",
           claims := some "xyz", enable_cae := true }] :=
  ⟨by decide, by decide, by decide, rfl, by decide, by decide,
   (c2_previous_scope_and_tenant_reused cred0 r401cae stCached oldCh0 chCae
      "https://vault.example.net" "tid" "xyz" (by decide) (by decide) (by decide) rfl
      (by decide) (by decide) (by decide) (by decide) (by decide) (by decide) (by decide)).1,
   (c2_previous_scope_and_tenant_reused cred0 r401cae stCached oldCh0 chCae
      "https://vault.example.net" "tid" "xyz" (by decide) (by decide) (by decide) rfl
      (by decide) (by decide) (by decide) (by decide) (by decide) (by decide) (by decide)).2⟩

end ChallengeAuth

namespace ChallengeAuth

/-- C1 counterexample: when all three 401s carry claims challenges, the
policy does not retry after the second 401 — the caller receives the
second response (not the third) after exactly two transport requests.
(`handle_challenge_flow` only recurses when the first challenge had no
claims, line 164.) -/
theorem c1_counterexample_all_claims_sequence :
    (send cred0 scriptclaims 1000 st0).response = some r401claims2 ∧
    r401claims2 ≠ r401claims3 ∧
    (send cred0 scriptclaims 1000 st0).state.sent.length = 2 :=
  ⟨rfl, by decide, rfl⟩

/-- C1 amended: re-authentication on consecutive 401 challenges is bounded
at two, and the two-retry bound is reached exactly when a non-claims (Key
Vault) challenge is followed by a claims challenge: for
`401 (no claims) → 401 (claims) → r3` the third response is returned to the
caller unmodified and no fourth request is sent, while for
`401 (claims) → 401 (claims)` the second 401 is already returned unmodified
after a single re-authentication (no third request). -/
theorem c1_amended_retry_bound :
    (∀ r3 : Response,
      (send cred0 (scriptKvCae r3) 1000 st0).response = some r3 ∧
      (send cred0 (scriptKvCae r3) 1000 st0).state.sent.length = 3) ∧
    (send cred0 scriptclaims 1000 st0).response = some r401claims2 ∧
    (send cred0 scriptclaims 1000 st0).state.sent.length = 2 :=
  ⟨fun _ => ⟨rfl, rfl⟩, rfl, rfl⟩

/-- C4: with no cached challenge and the sequence `401 (discovery, no
claims) → 200`, exactly two requests reach the transport: a bodiless probe
without an `Authorization` header, then the original body with a bearer
token attached; the 200 (arbitrary headers and body) is returned to the
caller. -/
theorem c4_probe_then_authorized_resend :
    ∀ (hd : List (String × String)) (bd : String),
      (send cred0 (scriptKv (Response.mk 200 hd bd)) 1000 st0).response =
        some (Response.mk 200 hd bd) ∧
      (send cred0 (scriptKv (Response.mk 200 hd bd)) 1000 st0).state.sent.map
        (fun r => (headerGet r.headers "Authorization", r.content)) =
        [(none, none), (some "Bearer tok", some "body")] :=
  fun _ _ => ⟨rfl, rfl⟩

/-- C6 counterexample: on a 401 whose challenge header is unparsable, the
policy does not surface any error — the `ValueError` of challenge parsing
is caught in `on_challenge` (line 214) and the 401 itself is returned;
no token request is attempted. -/
theorem c6_counterexample_malformed_returns_401 :
    (send cred0 scriptBad 1000 st0).raised = none ∧
    (send cred0 scriptBad 1000 st0).response = some r401bad ∧
    (send cred0 scriptBad 1000 st0).state.tokenRequests = [] :=
  ⟨rfl, rfl, rfl⟩

/-- C6 amended: for every 401 whose challenge header is unparsable (but
passes the `_has_claims` probe), the challenge flow aborts by returning the
401 response to the caller unchanged, with no token request attempted and
no further transport send — the state changes only by invalidating the
cached token. -/
theorem c6_amended_malformed_aborts_quietly (cred : TokenRequest → AccessToken)
    (script : Nat → Response) (resp : Response) (s : St) (hdr : String) (b : Bool)
    (hhdr : headerGet resp.headers "WWW-Authenticate" = some hdr)
    (hhc : _has_claims hdr = some b)
    (hparse : parseChallenge hdr = none) :
    handle_challenge_flow cred script resp s = Res.ok resp { s with token := none } := by
  unfold handle_challenge_flow on_challenge _update_challenge
  rw [hhdr]
  simp [hhc, hparse]

/-- C6 amended witness: the header `Bearer nonsense-without-equals` is
unparsable; the flow returns the 401 with only the token invalidated. -/
theorem c6_amended_malformed_aborts_quietly_witness :
    headerGet r401bad.headers "WWW-Authenticate" = some "Bearer nonsense-without-equals" ∧
    _has_claims "Bearer nonsense-without-equals" = some false ∧
    parseChallenge "Bearer nonsense-without-equals" = none ∧
    handle_challenge_flow cred0 scriptBad r401bad st0 =
      Res.ok r401bad { st0 with token := none } :=
  ⟨by decide, by decide, by decide,
   c6_amended_malformed_aborts_quietly cred0 scriptBad r401bad st0
     "Bearer nonsense-without-equals" false (by decide) (by decide) (by decide)⟩

end ChallengeAuth
